import Mathlib

/-!
Shallow embedding of `src/soil-moisture-server/server.js`.

Modelling conventions:
* An HTTP body / query field that may be absent is an `Option String`
  (`none` = JS `undefined`/`null`).
* JS truthiness on such values (`!phase`, `image || row.image`,
  `sensor1 || 'N/A'`) is `truthy` / `jsOr` below: `none` and the empty
  string are falsy, every other string is truthy.
* The SQLite tables are lists of rows plus an auto-increment counter
  (`AUTOINCREMENT` assigns `nextId` and bumps it; rows are appended).
* `Date.parse` is a JS builtin, treated as an external oracle
  `parseOk : String → Bool` (`true` iff the string parses as a date).
* Each handler is a pure function from its inputs and the relevant state
  to a response value and the new state.  A handler that would throw an
  uncaught exception inside a storage callback (crashing the Node
  process) returns a dedicated `crash` outcome.
-/

namespace SoilServer

/-- JS truthiness of a nullable string: `undefined`, `null` and `""` are
falsy, everything else truthy. -/
def truthy : Option String → Bool
  | none => false
  | some s => s != ""

/-- JS `a || b` on nullable strings. -/
def jsOr (a b : Option String) : Option String :=
  if truthy a then a else b

/-- JS `v || 'N/A'`: the value if truthy, else the sentinel. -/
def orNA (v : Option String) : Option String :=
  if truthy v then v else some "N/A"

/-! ### Phase timeline (`phase_logs` table, server.js lines 34-50, 247-290) -/

/-- A row of the `phase_logs` table. -/
structure PhaseRow where
  id : Nat
  phase : String
  start_date : String
deriving DecidableEq, Repr

/-- The `phase_logs` table: rows plus the auto-increment counter.
A fresh database has no rows and `nextId = 1` (SQLite starts at 1). -/
structure PhaseDB where
  rows : List PhaseRow
  nextId : Nat
deriving DecidableEq, Repr

/-- Well-formedness maintained by SQLite `AUTOINCREMENT`: every stored id
is below the next id to be assigned. -/
def PhaseDB.WF (db : PhaseDB) : Prop :=
  ∀ r ∈ db.rows, r.id < db.nextId

instance (db : PhaseDB) : Decidable db.WF := by
  unfold PhaseDB.WF; infer_instance

/-- Startup seeding (server.js lines 42-49): if the table is empty,
insert a default `vegetative` row dated with the boot time. -/
def initPhaseLogs (bootTime : String) (db : PhaseDB) : PhaseDB :=
  if db.rows.length = 0 then
    { rows := db.rows ++ [⟨db.nextId, "vegetative", bootTime⟩],
      nextId := db.nextId + 1 }
  else db

/-- Result of `POST /set-phase`. -/
inductive SetPhaseResult where
  | badRequest (error : String)
  | ok (id : Nat) (phase startDate : String)
deriving DecidableEq, Repr

/-- `POST /set-phase` (server.js lines 247-265).  Validates, then inserts
and echoes `\x7b id, phase, startDate \x7d`.  `parseOk` is the
`Date.parse` oracle. -/
def setPhase (parseOk : String → Bool) (phase startDate : Option String)
    (db : PhaseDB) : SetPhaseResult × PhaseDB :=
  if !truthy phase || !truthy startDate then
    (.badRequest "Phase and startDate are required", db)
  else if !parseOk (startDate.getD "") then
    (.badRequest "Invalid startDate format", db)
  else
    (.ok db.nextId (phase.getD "") (startDate.getD ""),
     { rows := db.rows ++ [⟨db.nextId, phase.getD "", startDate.getD ""⟩],
       nextId := db.nextId + 1 })

/-- `SELECT ... ORDER BY id DESC LIMIT 1`: the row with the greatest id
(ids are unique under `PhaseDB.WF`; ties resolve to the later row). -/
def maxIdRow : List PhaseRow → Option PhaseRow
  | [] => none
  | r :: rs =>
    match maxIdRow rs with
    | none => some r
    | some m => if r.id > m.id then some r else some m

/-- Result of `GET /current-phase`. -/
inductive CurrentPhaseResult where
  | notFound (error : String)
  | ok (phase startDate : String)
deriving DecidableEq, Repr

/-- `GET /current-phase` (server.js lines 267-278). -/
def currentPhase (db : PhaseDB) : CurrentPhaseResult :=
  match maxIdRow db.rows with
  | none => .notFound "No phase data found"
  | some r => .ok r.phase r.start_date

/-- Run a sequence of `setPhase` calls, keeping going only while each
call is accepted; `none` if some call is rejected. -/
def runAccepted (parseOk : String → Bool) :
    List (Option String × Option String) → PhaseDB → Option PhaseDB
  | [], db => some db
  | c :: cs, db =>
    match setPhase parseOk c.1 c.2 db with
    | (.ok _ _ _, db2) => runAccepted parseOk cs db2
    | (.badRequest _, _) => none

/-- Run a sequence of `setPhase` calls, rejected ones included (a
rejected call leaves the table untouched). -/
def runSetPhases (parseOk : String → Bool)
    (calls : List (Option String × Option String)) (db : PhaseDB) : PhaseDB :=
  calls.foldl (fun d c => (setPhase parseOk c.1 c.2 d).2) db

/-- Lexicographic order on code points; on UTF-8 text this agrees with
the byte-wise `memcmp` order SQLite's default BINARY collation uses for
TEXT columns. -/
def charListLe : List Char → List Char → Bool
  | [], _ => true
  | _ :: _, [] => false
  | a :: as, b :: bs =>
    if a.toNat < b.toNat then true
    else if b.toNat < a.toNat then false
    else charListLe as bs

/-- SQLite BINARY-collation `<=` on TEXT values. -/
def strLe (a b : String) : Bool := charListLe a.data b.data

/-- Descending order on rows by the caller-supplied `start_date` text key
(SQLite `ORDER BY start_date DESC` on a TEXT column). -/
def startDateGE (a b : PhaseRow) : Prop :=
  strLe b.start_date a.start_date = true

lemma charListLe_total : ∀ x y : List Char,
    charListLe x y = true ∨ charListLe y x = true
  | [], _ => Or.inl rfl
  | _ :: _, [] => Or.inr rfl
  | a :: as, b :: bs => by
    by_cases hab : a.toNat < b.toNat
    · exact Or.inl (by simp [charListLe, hab])
    · by_cases hba : b.toNat < a.toNat
      · exact Or.inr (by simp [charListLe, hba])
      · rcases charListLe_total as bs with h | h
        · exact Or.inl (by simp [charListLe, hab, hba, h])
        · exact Or.inr (by simp [charListLe, hba, hab, h])

lemma charListLe_trans : ∀ {x y z : List Char},
    charListLe x y = true → charListLe y z = true → charListLe x z = true
  | [], _, _, _, _ => rfl
  | _ :: _, [], _, h1, _ => by simp [charListLe] at h1
  | _ :: _, _ :: _, [], _, h2 => by simp [charListLe] at h2
  | a :: as, b :: bs, c :: cs, h1, h2 => by
    simp only [charListLe] at h1 h2 ⊢
    by_cases hab : a.toNat < b.toNat
    · by_cases hbc : b.toNat < c.toNat
      · simp [Nat.lt_trans hab hbc]
      · rw [if_neg hbc] at h2
        by_cases hcb : c.toNat < b.toNat
        · rw [if_pos hcb] at h2; exact absurd h2 (by simp)
        · have hac : a.toNat < c.toNat := by omega
          simp [hac]
    · rw [if_neg hab] at h1
      by_cases hba : b.toNat < a.toNat
      · rw [if_pos hba] at h1; exact absurd h1 (by simp)
      · rw [if_neg hba] at h1
        by_cases hbc : b.toNat < c.toNat
        · have hac : a.toNat < c.toNat := by omega
          simp [hac]
        · rw [if_neg hbc] at h2
          by_cases hcb : c.toNat < b.toNat
          · rw [if_pos hcb] at h2; exact absurd h2 (by simp)
          · rw [if_neg hcb] at h2
            have hac : ¬ a.toNat < c.toNat := by omega
            have hca : ¬ c.toNat < a.toNat := by omega
            rw [if_neg hac, if_neg hca]
            exact charListLe_trans h1 h2

instance : DecidableRel startDateGE := fun a b =>
  inferInstanceAs (Decidable (strLe b.start_date a.start_date = true))

instance : IsTotal PhaseRow startDateGE :=
  ⟨fun a b =>
    (charListLe_total b.start_date.data a.start_date.data).imp id id⟩

instance : IsTrans PhaseRow startDateGE :=
  ⟨fun _ _ _ h1 h2 => charListLe_trans h2 h1⟩

/-- `GET /phase-logs` (server.js lines 281-290): all rows, projected to
`(phase, start_date)`, ordered by `start_date` descending. -/
def phaseHistory (db : PhaseDB) : List (String × String) :=
  (List.insertionSort startDateGE db.rows).map fun r => (r.phase, r.start_date)

/-! ### Sensor state cache (server.js lines 70-112, 129-131) -/

/-- The in-memory `sensorData` object.  Fields are nullable strings:
`null` initially, the submitted string (or the `N/A` sentinel) after an
accepted update. -/
structure SensorData where
  averageMoisture : Option String
  relayStatus : Option String
  sensor1 : Option String
  sensor2 : Option String
  sensor3 : Option String
  sensor4 : Option String
  sensor5 : Option String
  sensor6 : Option String
  sensor7 : Option String
  sensor8 : Option String
  sensor9 : Option String
deriving DecidableEq, Repr

/-- The startup value of `sensorData`: every field `null`. -/
def initialSensorData : SensorData :=
  ⟨none, none, none, none, none, none, none, none, none, none, none⟩

/-- The query string of `GET /update` (`req.query`): each key is absent
(`none`) or a string (possibly empty). -/
structure UpdateQuery where
  moisture : Option String
  status : Option String
  sensor1 : Option String
  sensor2 : Option String
  sensor3 : Option String
  sensor4 : Option String
  sensor5 : Option String
  sensor6 : Option String
  sensor7 : Option String
  sensor8 : Option String
  sensor9 : Option String
deriving DecidableEq, Repr

/-- Result of `GET /update`. -/
inductive UpdateSensorResult where
  | ok (body : String)
  | badRequest (body : String)
deriving DecidableEq, Repr

/-- `GET /update` (server.js lines 89-112): accepts iff `moisture` and
`status` are both present (`!== undefined`, so the empty string passes),
then replaces the whole cached snapshot; optional sensors default to the
`N/A` sentinel via `sensorN || 'N/A'`. -/
def handleUpdate (q : UpdateQuery) (cache : SensorData) :
    UpdateSensorResult × SensorData :=
  if q.moisture.isSome && q.status.isSome then
    (.ok "Data received",
     { averageMoisture := q.moisture
       relayStatus := q.status
       sensor1 := orNA q.sensor1
       sensor2 := orNA q.sensor2
       sensor3 := orNA q.sensor3
       sensor4 := orNA q.sensor4
       sensor5 := orNA q.sensor5
       sensor6 := orNA q.sensor6
       sensor7 := orNA q.sensor7
       sensor8 := orNA q.sensor8
       sensor9 := orNA q.sensor9 })
  else
    (.badRequest "Invalid data", cache)

/-- `GET /data` (server.js lines 129-131): serves the snapshot verbatim. -/
def readData (cache : SensorData) : SensorData := cache

/-! ### Event log buffer (`logs` array, server.js lines 9, 115-124, 134-136) -/

/-- An element of the in-memory `logs` array: the server-assigned
timestamp plus the body fields stored as given. -/
structure LogEntry where
  time : String
  moisture : Option String
  relayStatus : Option String
  lastSensor : Option String
deriving DecidableEq, Repr

/-- `POST /log` (server.js lines 115-124): assigns the server time `now`
as the timestamp, appends the entry with no validation, and responds
with the fixed message `Log received` — no identifier, no echoed
fields. -/
def handleLog (now : String) (moisture relayStatus lastSensor : Option String)
    (logs : List LogEntry) : String × List LogEntry :=
  ("Log received", logs ++ [⟨now, moisture, relayStatus, lastSensor⟩])

/-! ### Report archive (`weekly_reports` table, server.js 15-21, 139-245) -/

/-- A row of the `weekly_reports` table; `title` and `report_date` are
`NOT NULL`, `image` and `description` are nullable. -/
structure Report where
  id : Nat
  title : String
  report_date : String
  image : Option String
  description : Option String
deriving DecidableEq, Repr

/-- The `weekly_reports` table with its auto-increment counter. -/
structure ReportDB where
  rows : List Report
  nextId : Nat
deriving DecidableEq, Repr

/-- `SELECT ... WHERE id = ?` with `db.get`: the first matching row. -/
def ReportDB.get (db : ReportDB) (i : Nat) : Option Report :=
  db.rows.find? fun r => r.id = i

/-- Result of `POST /upload-report`: a SQLite error (e.g. a `NOT NULL`
constraint violation when `title` or `report_date` is bound to `null`)
is surfaced as a 500; otherwise the fixed message is returned. -/
inductive UploadReportResult where
  | serverError (error : String)
  | ok (message : String)
deriving DecidableEq, Repr

/-- `POST /upload-report` (server.js lines 139-153): inserts the row
with no field validation (`image` is the staged filename, or `null` when
no file was uploaded; binding `null` for `title`/`report_date` trips the
schema's `NOT NULL` constraint and yields a storage error) and responds
with the fixed message `Report saved successfully` — the success
response carries no id and echoes no field. -/
def uploadReport (title description reportDate : Option String)
    (file : Option String) (db : ReportDB) : UploadReportResult × ReportDB :=
  match title, reportDate with
  | some t, some rd =>
    (.ok "Report saved successfully",
     { rows := db.rows ++ [⟨db.nextId, t, rd, file, description⟩],
       nextId := db.nextId + 1 })
  | _, _ =>
    (.serverError "SQLITE_CONSTRAINT: NOT NULL constraint failed", db)

/-- Result of `PUT /update-report/:id`.  `crash` models an uncaught
exception thrown inside the `db.get` callback, which kills the Node
process instead of producing a response. -/
inductive UpdateReportResult where
  | badRequest (error : String)
  | ok (message : String)
  | crash
deriving DecidableEq, Repr

/-- `PUT /update-report/:id` (server.js lines 170-201).  Validates the
three scalar fields, reads the current row, then writes
`image || row.image`.  When no row matches the id, `row` is `undefined`:
if an uploaded file made `image` truthy, `||` short-circuits, `row.image`
is never read, and the `UPDATE` matches zero rows, so the handler still
answers with the success message over an unchanged table; with no file,
`image` is `null` and evaluating `row.image` throws an uncaught
`TypeError` — modelled as `crash` (the `UPDATE` is never reached, so the
table is unchanged). -/
def updateReport (i : Nat) (title reportDate description : Option String)
    (file : Option String) (db : ReportDB) : UpdateReportResult × ReportDB :=
  if !truthy title || !truthy reportDate || !truthy description then
    (.badRequest "Title, date, and description are required.", db)
  else
    match db.get i with
    | none =>
      if truthy file then (.ok "Report updated successfully", db)
      else (.crash, db)
    | some row =>
      (.ok "Report updated successfully",
       { db with rows := db.rows.map fun r =>
           if r.id = i then
             { r with
               title := title.getD ""
               report_date := reportDate.getD ""
               image := jsOr file row.image
               description := description }
           else r })

/-- `DELETE /delete-report/:id` (server.js lines 204-228).  Reads the
image reference; when a row with a truthy image exists, attempts the
`fs.unlink` (modelled on the filesystem `fs`, a list of stored
filenames; `unlinkOk = false` means the removal failed and was only
logged).  Then deletes the row(s) and responds with the fixed success
message in every case. -/
def deleteReport (i : Nat) (unlinkOk : Bool) (db : ReportDB)
    (fs : List String) : String × ReportDB × List String :=
  let fs2 : List String :=
    match db.get i with
    | some row =>
      if truthy row.image then
        if unlinkOk then fs.filter (fun f => some f ≠ row.image) else fs
      else fs
    | none => fs
  ("Report deleted successfully",
   { db with rows := db.rows.filter fun r => r.id ≠ i },
   fs2)

/-- Result of `GET /report/:id`. -/
inductive GetReportResult where
  | notFound (error : String)
  | ok (r : Report)
deriving DecidableEq, Repr

/-- `GET /report/:id` (server.js lines 231-245). -/
def getReport (i : Nat) (db : ReportDB) : GetReportResult :=
  match db.get i with
  | none => .notFound "Report not found."
  | some r => .ok r

/-- The image reference of the stored report with the given id, when one
exists. -/
def reportImage (i : Nat) (db : ReportDB) : Option (Option String) :=
  (db.get i).map fun r => r.image

/-! ### Helper lemmas -/

/-- An accepted `setPhase` call appends a row carrying the next id and
bumps the counter; the response echoes that id and the two fields. -/
lemma setPhase_of_ok {pk : String → Bool} {p s : Option String}
    {db : PhaseDB} {i : Nat} {ph sd : String}
    (h : (setPhase pk p s db).1 = .ok i ph sd) :
    setPhase pk p s db =
      (.ok db.nextId (p.getD "") (s.getD ""),
       ⟨db.rows ++ [⟨db.nextId, p.getD "", s.getD ""⟩], db.nextId + 1⟩) := by
  by_cases h1 : (!truthy p || !truthy s) = true
  · simp [setPhase, h1] at h
  · by_cases h2 : (!pk (s.getD "")) = true
    · simp [setPhase, h1, h2] at h
    · simp only [Bool.not_eq_true] at h1 h2
      simp [setPhase, h1, h2]

/-- A rejected `setPhase` call leaves the table untouched. -/
lemma setPhase_snd_of_badRequest {pk : String → Bool} {p s : Option String}
    {db : PhaseDB} {e : String}
    (h : (setPhase pk p s db).1 = .badRequest e) :
    (setPhase pk p s db).2 = db := by
  by_cases h1 : (!truthy p || !truthy s) = true
  · simp [setPhase, h1]
  · by_cases h2 : (!pk (s.getD "")) = true
    · simp [setPhase, h1, h2]
    · simp [setPhase, h1, h2] at h

lemma WF_setPhase {pk : String → Bool} {p s : Option String}
    {db : PhaseDB} (h : db.WF) : ((setPhase pk p s db).2).WF := by
  cases hr : (setPhase pk p s db).1 with
  | badRequest e => rw [setPhase_snd_of_badRequest hr]; exact h
  | ok i ph sd =>
    rw [congrArg Prod.snd (setPhase_of_ok hr)]
    intro r hr2
    rcases List.mem_append.1 hr2 with hm | hm
    · exact Nat.lt_succ_of_lt (h r hm)
    · rw [List.mem_singleton.1 hm]; exact Nat.lt_succ_self _

lemma runAccepted_append (pk : String → Bool)
    (as bs : List (Option String × Option String)) (db : PhaseDB) :
    runAccepted pk (as ++ bs) db =
      (runAccepted pk as db).bind (runAccepted pk bs) := by
  induction as generalizing db with
  | nil => rfl
  | cons c cs ih =>
    rw [List.cons_append]
    show (match setPhase pk c.1 c.2 db with
          | (.ok _ _ _, db2) => runAccepted pk (cs ++ bs) db2
          | (.badRequest _, _) => none) = _
    cases hsp : setPhase pk c.1 c.2 db with
    | mk res db2 =>
      cases res with
      | ok i ph sd => simp [runAccepted, hsp, ih]
      | badRequest e => simp [runAccepted, hsp]

lemma WF_runAccepted {pk : String → Bool}
    {cs : List (Option String × Option String)} {db db2 : PhaseDB}
    (h : runAccepted pk cs db = some db2) (hwf : db.WF) : db2.WF := by
  induction cs generalizing db with
  | nil =>
    simp only [runAccepted, Option.some.injEq] at h
    exact h ▸ hwf
  | cons c cs ih =>
    rw [show runAccepted pk (c :: cs) db =
        (match setPhase pk c.1 c.2 db with
         | (.ok _ _ _, d2) => runAccepted pk cs d2
         | (.badRequest _, _) => none) from rfl] at h
    cases hsp : setPhase pk c.1 c.2 db with
    | mk res d2 =>
      rw [hsp] at h
      cases res with
      | badRequest e => simp at h
      | ok i ph sd =>
        have hwf2 : d2.WF := by
          have := @WF_setPhase pk c.1 c.2 db hwf
          rw [hsp] at this
          exact this
        exact ih h hwf2

lemma maxIdRow_append_last {l : List PhaseRow} {x : PhaseRow}
    (h : ∀ r ∈ l, r.id < x.id) : maxIdRow (l ++ [x]) = some x := by
  induction l with
  | nil => rfl
  | cons r rs ih =>
    have hr : r.id < x.id := h r (List.mem_cons_self r rs)
    have ih2 := ih fun a ha => h a (List.mem_cons_of_mem r ha)
    have hnot : ¬ r.id > x.id := by omega
    simp [maxIdRow, ih2, hnot]

lemma maxIdRow_of_ne_nil {l : List PhaseRow} (h : l ≠ []) :
    ∃ r, maxIdRow l = some r := by
  cases l with
  | nil => exact absurd rfl h
  | cons r rs =>
    rw [show maxIdRow (r :: rs) =
        (match maxIdRow rs with
         | none => some r
         | some m => if r.id > m.id then some r else some m) from rfl]
    cases maxIdRow rs with
    | none => exact ⟨r, rfl⟩
    | some m =>
      by_cases hc : r.id > m.id
      · exact ⟨r, by simp [hc]⟩
      · exact ⟨m, by simp [hc]⟩

/-! ### Claim theorems -/

/-- C1: for every sequence of accepted `setPhase` calls, `currentPhase`
returns the phase and start date of the most recently inserted record —
the row with the greatest store-assigned identifier — regardless of the
chronological order of the supplied `startDate` values. -/
theorem current_phase_is_last_inserted
    (pk : String → Bool) (cs : List (Option String × Option String))
    (p s : Option String) (db db2 : PhaseDB) (hwf : db.WF)
    (h : runAccepted pk (cs ++ [(p, s)]) db = some db2) :
    currentPhase db2 = .ok (p.getD "") (s.getD "") := by
  rw [runAccepted_append] at h
  cases hmid : runAccepted pk cs db with
  | none => rw [hmid] at h; simp at h
  | some dbm =>
    rw [hmid] at h
    rw [Option.some_bind] at h
    have hwfm : dbm.WF := WF_runAccepted hmid hwf
    rw [show runAccepted pk [(p, s)] dbm =
        (match setPhase pk p s dbm with
         | (.ok _ _ _, d2) => runAccepted pk [] d2
         | (.badRequest _, _) => none) from rfl] at h
    cases hsp : setPhase pk p s dbm with
    | mk res d2 =>
      rw [hsp] at h
      cases res with
      | badRequest e => simp at h
      | ok i ph sd =>
        simp only [runAccepted, Option.some.injEq] at h
        have hshape := @setPhase_of_ok pk p s dbm i ph sd (by rw [hsp])
        rw [hshape] at hsp
        have hd2 : d2 = ⟨dbm.rows ++ [⟨dbm.nextId, p.getD "", s.getD ""⟩],
            dbm.nextId + 1⟩ := (congrArg Prod.snd hsp).symm
        subst h
        rw [hd2]
        unfold currentPhase
        rw [maxIdRow_append_last fun r hr => hwfm r hr]

/-- Witness for C1: two accepted calls whose start dates arrive in
reverse chronological order; `currentPhase` reports the second call. -/
theorem current_phase_is_last_inserted_witness :
    PhaseDB.WF ⟨[], 1⟩ ∧
    runAccepted (fun _ => true)
        ([(some "vegetative", some "2024-06-02")] ++
          [(some "flowering", some "2024-01-01")]) ⟨[], 1⟩
      = some ⟨[⟨1, "vegetative", "2024-06-02"⟩,
               ⟨2, "flowering", "2024-01-01"⟩], 3⟩ ∧
    currentPhase ⟨[⟨1, "vegetative", "2024-06-02"⟩,
                  ⟨2, "flowering", "2024-01-01"⟩], 3⟩
      = .ok "flowering" "2024-01-01" :=
  ⟨by decide, by decide,
   current_phase_is_last_inserted (fun _ => true)
     [(some "vegetative", some "2024-06-02")]
     (some "flowering") (some "2024-01-01") ⟨[], 1⟩ _ (by decide) (by decide)⟩

/-- C6: `setPhase` fails with the required-fields error when the phase
is empty/absent or the start date is absent, and with the format error
when the start date does not parse; in both cases the response is
produced before the insert, so the table is returned unchanged. -/
theorem set_phase_validation_before_insert
    (pk : String → Bool) (p s : Option String) (db : PhaseDB) :
    (truthy p = false ∨ truthy s = false →
       setPhase pk p s db = (.badRequest "Phase and startDate are required", db)) ∧
    (truthy p = true → truthy s = true → pk (s.getD "") = false →
       setPhase pk p s db = (.badRequest "Invalid startDate format", db)) := by
  constructor
  · intro h
    have hc : (!truthy p || !truthy s) = true := by
      rcases h with h | h <;> simp [h]
    simp [setPhase, hc]
  · intro h1 h2 h3
    simp [setPhase, h1, h2, h3]

/-- Witness for C6: a non-parsing date hits the format error, an empty
phase hits the required-fields error; neither inserts a row. -/
theorem set_phase_validation_before_insert_witness :
    setPhase (fun d => d == "2024-06-01") (some "flowering") (some "not-a-date")
        ⟨[], 1⟩
      = (.badRequest "Invalid startDate format", ⟨[], 1⟩) ∧
    setPhase (fun d => d == "2024-06-01") (some "") (some "2024-06-01") ⟨[], 1⟩
      = (.badRequest "Phase and startDate are required", ⟨[], 1⟩) :=
  ⟨(set_phase_validation_before_insert (fun d => d == "2024-06-01")
      (some "flowering") (some "not-a-date") ⟨[], 1⟩).2
      (by decide) (by decide) (by decide),
   (set_phase_validation_before_insert (fun d => d == "2024-06-01")
      (some "") (some "2024-06-01") ⟨[], 1⟩).1 (Or.inl (by decide))⟩

/-- `setPhase` never removes rows. -/
lemma length_le_setPhase (pk : String → Bool) (p s : Option String)
    (db : PhaseDB) : db.rows.length ≤ (setPhase pk p s db).2.rows.length := by
  cases hr : (setPhase pk p s db).1 with
  | badRequest e => rw [setPhase_snd_of_badRequest hr]
  | ok i ph sd => rw [congrArg Prod.snd (setPhase_of_ok hr)]; simp

lemma length_le_runSetPhases (pk : String → Bool)
    (calls : List (Option String × Option String)) (db : PhaseDB) :
    db.rows.length ≤ (runSetPhases pk calls db).rows.length := by
  induction calls generalizing db with
  | nil => exact Nat.le_refl _
  | cons c cs ih =>
    calc db.rows.length
        ≤ (setPhase pk c.1 c.2 db).2.rows.length := length_le_setPhase pk c.1 c.2 db
      _ ≤ _ := ih _

/-- C7: initialization leaves the phase timeline nonempty (seeding a
default `vegetative` row dated with the boot time when the table is
empty), no later `setPhase` call shrinks it, and therefore
`currentPhase` succeeds — never the not-found error — after
initialization, whatever calls follow. -/
theorem phase_timeline_seeded_and_nonempty
    (pk : String → Bool) (calls : List (Option String × Option String))
    (bt : String) (db : PhaseDB) :
    0 < (initPhaseLogs bt db).rows.length ∧
    (db.rows = [] →
       initPhaseLogs bt db = ⟨[⟨db.nextId, "vegetative", bt⟩], db.nextId + 1⟩) ∧
    ∃ ph sd,
      currentPhase (runSetPhases pk calls (initPhaseLogs bt db)) = .ok ph sd := by
  have h1 : 0 < (initPhaseLogs bt db).rows.length := by
    unfold initPhaseLogs
    split
    · simp
    · omega
  refine ⟨h1, ?_, ?_⟩
  · intro h
    simp [initPhaseLogs, h]
  · have h2 : 0 < (runSetPhases pk calls (initPhaseLogs bt db)).rows.length :=
      Nat.lt_of_lt_of_le h1 (length_le_runSetPhases pk calls _)
    have h3 : (runSetPhases pk calls (initPhaseLogs bt db)).rows ≠ [] := by
      intro hnil
      rw [hnil] at h2
      exact Nat.lt_irrefl 0 h2
    obtain ⟨r, hr⟩ := maxIdRow_of_ne_nil h3
    exact ⟨r.phase, r.start_date, by unfold currentPhase; rw [hr]⟩

/-- Witness for C7: first boot on an empty table seeds the default row
and `currentPhase` succeeds. -/
theorem phase_timeline_seeded_and_nonempty_witness :
    0 < (initPhaseLogs "2024-01-01T00:00:00.000Z" ⟨[], 1⟩).rows.length ∧
    initPhaseLogs "2024-01-01T00:00:00.000Z" ⟨[], 1⟩
      = ⟨[⟨1, "vegetative", "2024-01-01T00:00:00.000Z"⟩], 2⟩ ∧
    ∃ ph sd,
      currentPhase (runSetPhases (fun _ => true) []
        (initPhaseLogs "2024-01-01T00:00:00.000Z" ⟨[], 1⟩)) = .ok ph sd :=
  ⟨(phase_timeline_seeded_and_nonempty (fun _ => true) []
      "2024-01-01T00:00:00.000Z" ⟨[], 1⟩).1,
   (phase_timeline_seeded_and_nonempty (fun _ => true) []
      "2024-01-01T00:00:00.000Z" ⟨[], 1⟩).2.1 rfl,
   (phase_timeline_seeded_and_nonempty (fun _ => true) []
      "2024-01-01T00:00:00.000Z" ⟨[], 1⟩).2.2⟩

/-- C9: `phaseHistory` returns exactly the stored records (projected to
phase and start date) ordered by the caller-supplied start-date key
descending; on a table whose start dates arrived out of chronological
order the listing differs from insertion order. -/
theorem phase_history_sorted_desc (db : PhaseDB) :
    (phaseHistory db).Perm (db.rows.map fun r => (r.phase, r.start_date)) ∧
    (phaseHistory db).Pairwise (fun a b => strLe b.2 a.2 = true) ∧
    phaseHistory ⟨[⟨1, "a", "2024-01-05"⟩, ⟨2, "b", "2024-03-01"⟩], 3⟩
      = [("b", "2024-03-01"), ("a", "2024-01-05")] ∧
    (PhaseDB.rows ⟨[⟨1, "a", "2024-01-05"⟩, ⟨2, "b", "2024-03-01"⟩], 3⟩).map
        (fun r => (r.phase, r.start_date))
      = [("a", "2024-01-05"), ("b", "2024-03-01")] := by
  refine ⟨?_, ?_, by decide, by decide⟩
  · exact List.Perm.map _ (List.perm_insertionSort startDateGE db.rows)
  · have hs := List.sorted_insertionSort startDateGE db.rows
    unfold phaseHistory
    rw [List.pairwise_map]
    exact hs

/-- C8: a sensor update missing `moisture` or `status` is rejected and
leaves the cached snapshot untouched; an accepted update replaces the
snapshot wholesale — independently of the previous snapshot — rendering
each optional sensor through `orNA`, which maps an omitted or empty
value to the `N/A` sentinel. -/
theorem sensor_update_wholesale (q : UpdateQuery) (c c2 : SensorData) :
    (q.moisture = none ∨ q.status = none →
       handleUpdate q c = (.badRequest "Invalid data", c)) ∧
    (q.moisture.isSome = true → q.status.isSome = true →
       handleUpdate q c =
         (.ok "Data received",
          ⟨q.moisture, q.status, orNA q.sensor1, orNA q.sensor2, orNA q.sensor3,
           orNA q.sensor4, orNA q.sensor5, orNA q.sensor6, orNA q.sensor7,
           orNA q.sensor8, orNA q.sensor9⟩) ∧
       (handleUpdate q c).2 = (handleUpdate q c2).2) ∧
    (∀ v : Option String, v = none ∨ v = some "" → orNA v = some "N/A") := by
  refine ⟨?_, ?_, ?_⟩
  · intro h
    have hc : (q.moisture.isSome && q.status.isSome) = false := by
      rcases h with h | h <;> simp [h]
    simp [handleUpdate, hc]
  · intro h1 h2
    simp [handleUpdate, h1, h2]
  · intro v h
    rcases h with h | h <;> rw [h] <;> decide

/-- Witness for C8: an update with empty `sensor2` and omitted
`sensor3`-`sensor9` overwrites a previously populated cache, and a
missing `status` is rejected without touching the cache. -/
theorem sensor_update_wholesale_witness :
    handleUpdate
        ⟨some "41", some "ON", some "40", some "", none, none, none, none,
         none, none, none⟩
        ⟨some "77", some "OFF", some "1", some "2", some "3", some "4",
         some "5", some "6", some "7", some "8", some "9"⟩
      = (.ok "Data received",
         ⟨some "41", some "ON", some "40", some "N/A", some "N/A", some "N/A",
          some "N/A", some "N/A", some "N/A", some "N/A", some "N/A"⟩) ∧
    handleUpdate
        ⟨some "41", none, none, none, none, none, none, none, none, none, none⟩
        initialSensorData
      = (.badRequest "Invalid data", initialSensorData) := by
  constructor
  · have h := (sensor_update_wholesale
      ⟨some "41", some "ON", some "40", some "", none, none, none, none,
       none, none, none⟩
      ⟨some "77", some "OFF", some "1", some "2", some "3", some "4",
       some "5", some "6", some "7", some "8", some "9"⟩
      initialSensorData).2.1 (by decide) (by decide)
    exact h.1.trans (by decide)
  · exact (sensor_update_wholesale
      ⟨some "41", none, none, none, none, none, none, none, none, none, none⟩
      initialSensorData initialSensorData).1 (Or.inr rfl)

/-- After a validated update, the stored row with the updated id carries
the new scalar fields and the image resolved by `image || row.image`. -/
lemma updateReport_get (i : Nat) (title rd desc file : Option String)
    (db : ReportDB) (row : Report)
    (hrow : db.get i = some row)
    (ht : truthy title = true) (hr : truthy rd = true)
    (hd : truthy desc = true) :
    ((updateReport i title rd desc file db).2).get i =
      some { row with
             title := title.getD ""
             report_date := rd.getD ""
             image := jsOr file row.image
             description := desc } := by
  have hcond : (!truthy title || !truthy rd || !truthy desc) = false := by
    simp [ht, hr, hd]
  unfold updateReport
  rw [hcond]
  simp only [Bool.false_eq_true, if_false]
  rw [hrow]
  have hid : row.id = i := by
    have := List.find?_some hrow
    simpa using this
  unfold ReportDB.get
  rw [List.find?_map]
  have hpred :
      ((fun r : Report => decide (r.id = i)) ∘
        (fun r : Report =>
          if r.id = i then
            { r with
              title := title.getD ""
              report_date := rd.getD ""
              image := jsOr file row.image
              description := desc }
          else r))
      = fun r : Report => decide (r.id = i) := by
    funext r
    by_cases hri : r.id = i <;> simp [hri]
  rw [hpred]
  rw [show db.rows.find? (fun r => decide (r.id = i)) = some row from hrow]
  simp [hid]

/-- The missing-id corner with an uploaded file: `image || row.image`
short-circuits on the truthy filename, `row.image` is never read, the
`UPDATE` matches zero rows, and the handler answers with the success
message over an unchanged table. -/
lemma updateReport_missing_id_with_file (i : Nat)
    (title rd desc : Option String) (f : String) (db : ReportDB)
    (h : db.get i = none) (hf : f ≠ "")
    (ht : truthy title = true) (hr : truthy rd = true)
    (hd : truthy desc = true) :
    updateReport i title rd desc (some f) db
      = (.ok "Report updated successfully", db) := by
  have hcond : (!truthy title || !truthy rd || !truthy desc) = false := by
    simp [ht, hr, hd]
  unfold updateReport
  rw [hcond]
  simp only [Bool.false_eq_true, if_false]
  rw [h]
  simp [truthy, hf]

/-- C2: updating an existing report without a newly uploaded image keeps
the stored image reference exactly equal to its prior value; with a new
asset the reference becomes the new filename. -/
theorem update_report_image_resolution
    (i : Nat) (title rd desc : Option String) (db : ReportDB) (row : Report)
    (hrow : db.get i = some row)
    (ht : truthy title = true) (hr : truthy rd = true)
    (hd : truthy desc = true) :
    reportImage i (updateReport i title rd desc none db).2 = some row.image ∧
    ∀ f : String, f ≠ "" →
      reportImage i (updateReport i title rd desc (some f) db).2
        = some (some f) := by
  constructor
  · rw [reportImage, updateReport_get i title rd desc none db row hrow ht hr hd]
    simp [jsOr, truthy]
  · intro f hf
    rw [reportImage, updateReport_get i title rd desc (some f) db row hrow ht hr hd]
    simp [jsOr, truthy, hf]

/-- Witness for C2: report 1 keeps image `a.png` when updated without a
file and takes `b.png` when one is uploaded. -/
theorem update_report_image_resolution_witness :
    reportImage 1 (updateReport 1 (some "Week 1b") (some "2024-06-01")
        (some "ok") none
        ⟨[⟨1, "Week 1", "2024-06-01", some "a.png", some "ok"⟩], 2⟩).2
      = some (some "a.png") ∧
    reportImage 1 (updateReport 1 (some "Week 1b") (some "2024-06-01")
        (some "ok") (some "b.png")
        ⟨[⟨1, "Week 1", "2024-06-01", some "a.png", some "ok"⟩], 2⟩).2
      = some (some "b.png") :=
  ⟨(update_report_image_resolution 1 (some "Week 1b") (some "2024-06-01")
      (some "ok") ⟨[⟨1, "Week 1", "2024-06-01", some "a.png", some "ok"⟩], 2⟩
      ⟨1, "Week 1", "2024-06-01", some "a.png", some "ok"⟩
      (by decide) (by decide) (by decide) (by decide)).1,
   (update_report_image_resolution 1 (some "Week 1b") (some "2024-06-01")
      (some "ok") ⟨[⟨1, "Week 1", "2024-06-01", some "a.png", some "ok"⟩], 2⟩
      ⟨1, "Week 1", "2024-06-01", some "a.png", some "ok"⟩
      (by decide) (by decide) (by decide) (by decide)).2 "b.png"
      (by decide)⟩

/-- C3 (failing input): a report update addressed to an id that resolves
to no record reaches `row.image` with `row` undefined inside the storage
callback; the uncaught `TypeError` crashes the process instead of
producing a response (no table change, since the `UPDATE` is never
reached). -/
theorem update_report_missing_id_crashes :
    updateReport 42 (some "Week 1") (some "2024-06-01") (some "ok") none
        ⟨[⟨1, "Week 1", "2024-06-01", some "a.png", some "ok"⟩], 2⟩
      = (.crash, ⟨[⟨1, "Week 1", "2024-06-01", some "a.png", some "ok"⟩], 2⟩) := by
  decide

/-- C5: deleting an existing report removes the record — a subsequent
lookup fails with the not-found error — and neither the response nor the
resulting table depends on whether the image-asset removal succeeded. -/
theorem delete_then_get_not_found
    (i : Nat) (unlinkOk : Bool) (db : ReportDB) (fs : List String)
    (row : Report) (_hrow : db.get i = some row) :
    (deleteReport i unlinkOk db fs).1 = "Report deleted successfully" ∧
    getReport i (deleteReport i unlinkOk db fs).2.1
      = .notFound "Report not found." ∧
    (deleteReport i true db fs).2.1 = (deleteReport i false db fs).2.1 := by
  refine ⟨rfl, ?_, rfl⟩
  have hnone : ((deleteReport i unlinkOk db fs).2.1).get i = none := by
    unfold deleteReport ReportDB.get
    simp only []
    rw [List.find?_eq_none]
    intro r hrm
    have := (List.mem_filter.1 hrm).2
    simp at this
    simp [this]
  unfold getReport
  rw [hnone]

/-- Witness for C5: after deleting report 1 (with the unlink failing),
fetching it yields the not-found error. -/
theorem delete_then_get_not_found_witness :
    (deleteReport 1 false
        ⟨[⟨1, "Week 1", "2024-06-01", some "a.png", some "ok"⟩], 2⟩
        ["a.png"]).1 = "Report deleted successfully" ∧
    getReport 1 (deleteReport 1 false
        ⟨[⟨1, "Week 1", "2024-06-01", some "a.png", some "ok"⟩], 2⟩
        ["a.png"]).2.1 = .notFound "Report not found." :=
  ⟨(delete_then_get_not_found 1 false
      ⟨[⟨1, "Week 1", "2024-06-01", some "a.png", some "ok"⟩], 2⟩ ["a.png"]
      ⟨1, "Week 1", "2024-06-01", some "a.png", some "ok"⟩ (by decide)).1,
   (delete_then_get_not_found 1 false
      ⟨[⟨1, "Week 1", "2024-06-01", some "a.png", some "ok"⟩], 2⟩ ["a.png"]
      ⟨1, "Week 1", "2024-06-01", some "a.png", some "ok"⟩ (by decide)).2.1⟩

/-- C10: deleting an id that matches no record is not a not-found
failure: the image read yields no row, no unlink is attempted, the
record deletion touches nothing, and the response is the same success
message a deletion of an existing record produces. -/
theorem delete_missing_id_succeeds
    (i : Nat) (unlinkOk : Bool) (db : ReportDB) (fs : List String)
    (h : db.get i = none) :
    deleteReport i unlinkOk db fs = ("Report deleted successfully", db, fs) ∧
    ∀ (j : Nat) (u2 : Bool) (db2 : ReportDB) (fs2 : List String),
      (deleteReport i unlinkOk db fs).1 = (deleteReport j u2 db2 fs2).1 := by
  refine ⟨?_, fun j u2 db2 fs2 => rfl⟩
  have hall : ∀ r ∈ db.rows, ¬ r.id = i := by
    intro r hrm
    have := List.find?_eq_none.1 h r hrm
    simpa using this
  have hfil : db.rows.filter (fun r => decide (r.id ≠ i)) = db.rows := by
    rw [List.filter_eq_self]
    intro r hrm
    simp [hall r hrm]
  unfold deleteReport
  rw [h]
  simp only [hfil]

/-- C4 counterexample: two successful report creations with different
fields, against stores whose next identifiers differ (1 versus 7),
return the identical fixed response — the success response of this write
operation neither contains the created identifier nor echoes any
accepted field, refuting the claimed response contract for every write
operation. -/
theorem write_success_response_not_echoing :
    (uploadReport (some "Week 1") (some "ok") (some "2024-06-01")
        (some "a.png") ⟨[], 1⟩).1
      = .ok "Report saved successfully" ∧
    (uploadReport (some "Week 2") (some "other") (some "2024-07-01")
        none ⟨[], 7⟩).1
      = .ok "Report saved successfully" ∧
    (uploadReport (some "Week 1") (some "ok") (some "2024-06-01")
        (some "a.png") ⟨[], 1⟩).2.nextId = 2 ∧
    (uploadReport (some "Week 2") (some "other") (some "2024-07-01")
        none ⟨[], 7⟩).2.nextId = 8 := by
  decide

/-- C4 amended: only `setPhase` meets the claimed contract — its success
response carries the created identifier and echoes phase and start date;
the other write operations (report create, report update, report delete,
sensor ingest, event-log append) return fixed success messages that
include neither the identifier nor the accepted fields. -/
theorem write_response_contract
    (pk : String → Bool) (p s : Option String) (pdb : PhaseDB)
    (i : Nat) (t2 rd2 d2 f2 : Option String) (db2 : ReportDB) (row : Report)
    (u : Bool) (db3 : ReportDB) (fs : List String)
    (q : UpdateQuery) (c : SensorData) :
    (truthy p = true → truthy s = true → pk (s.getD "") = true →
       (setPhase pk p s pdb).1 = .ok pdb.nextId (p.getD "") (s.getD "")) ∧
    (∀ (t rd : String) (d f : Option String) (db : ReportDB),
       (uploadReport (some t) d (some rd) f db).1
         = .ok "Report saved successfully") ∧
    (db2.get i = some row → truthy t2 = true → truthy rd2 = true →
       truthy d2 = true →
       (updateReport i t2 rd2 d2 f2 db2).1 = .ok "Report updated successfully") ∧
    (deleteReport i u db3 fs).1 = "Report deleted successfully" ∧
    (q.moisture.isSome = true → q.status.isSome = true →
       (handleUpdate q c).1 = .ok "Data received") ∧
    (∀ (now : String) (m r l : Option String) (logs : List LogEntry),
       (handleLog now m r l logs).1 = "Log received") := by
  refine ⟨?_, fun t rd d f db => rfl, ?_, rfl, ?_, fun now m r l logs => rfl⟩
  · intro h1 h2 h3
    simp [setPhase, h1, h2, h3]
  · intro hrow ht hr hd
    have hcond : (!truthy t2 || !truthy rd2 || !truthy d2) = false := by
      simp [ht, hr, hd]
    unfold updateReport
    rw [hcond]
    simp only [Bool.false_eq_true, if_false]
    rw [hrow]
  · intro h1 h2
    simp [handleUpdate, h1, h2]

/-- Witness for C4 amended: a concrete accepted `setPhase` echoes id 1
and its fields; a concrete report update and a concrete sensor ingest
return their fixed messages. -/
theorem write_response_contract_witness :
    (setPhase (fun d => d == "2024-06-01") (some "flowering")
        (some "2024-06-01") ⟨[], 1⟩).1
      = .ok 1 "flowering" "2024-06-01" ∧
    (updateReport 1 (some "Week 1b") (some "2024-06-01") (some "ok") none
        ⟨[⟨1, "Week 1", "2024-06-01", some "a.png", some "ok"⟩], 2⟩).1
      = .ok "Report updated successfully" ∧
    (handleUpdate
        ⟨some "41", some "ON", none, none, none, none, none, none, none,
         none, none⟩ initialSensorData).1
      = .ok "Data received" :=
  ⟨(write_response_contract (fun d => d == "2024-06-01") (some "flowering")
      (some "2024-06-01") ⟨[], 1⟩ 1 (some "Week 1b") (some "2024-06-01")
      (some "ok") none ⟨[⟨1, "Week 1", "2024-06-01", some "a.png", some "ok"⟩], 2⟩
      ⟨1, "Week 1", "2024-06-01", some "a.png", some "ok"⟩ true ⟨[], 1⟩ []
      ⟨some "41", some "ON", none, none, none, none, none, none, none,
       none, none⟩ initialSensorData).1
      (by decide) (by decide) (by decide),
   (write_response_contract (fun d => d == "2024-06-01") (some "flowering")
      (some "2024-06-01") ⟨[], 1⟩ 1 (some "Week 1b") (some "2024-06-01")
      (some "ok") none ⟨[⟨1, "Week 1", "2024-06-01", some "a.png", some "ok"⟩], 2⟩
      ⟨1, "Week 1", "2024-06-01", some "a.png", some "ok"⟩ true ⟨[], 1⟩ []
      ⟨some "41", some "ON", none, none, none, none, none, none, none,
       none, none⟩ initialSensorData).2.2.1
      (by decide) (by decide) (by decide) (by decide),
   (write_response_contract (fun d => d == "2024-06-01") (some "flowering")
      (some "2024-06-01") ⟨[], 1⟩ 1 (some "Week 1b") (some "2024-06-01")
      (some "ok") none ⟨[⟨1, "Week 1", "2024-06-01", some "a.png", some "ok"⟩], 2⟩
      ⟨1, "Week 1", "2024-06-01", some "a.png", some "ok"⟩ true ⟨[], 1⟩ []
      ⟨some "41", some "ON", none, none, none, none, none, none, none,
       none, none⟩ initialSensorData).2.2.2.2.1
      (by decide) (by decide)⟩

/-- Witness for C10: deleting absent id 9 leaves table and filesystem
untouched and still reports success. -/
theorem delete_missing_id_succeeds_witness :
    deleteReport 9 true
        ⟨[⟨1, "Week 1", "2024-06-01", some "a.png", some "ok"⟩], 2⟩ ["a.png"]
      = ("Report deleted successfully",
         ⟨[⟨1, "Week 1", "2024-06-01", some "a.png", some "ok"⟩], 2⟩,
         ["a.png"]) :=
  (delete_missing_id_succeeds 9 true
      ⟨[⟨1, "Week 1", "2024-06-01", some "a.png", some "ok"⟩], 2⟩ ["a.png"]
      (by decide)).1

end SoilServer
